import Mathlib

/-!
Shallow embedding of the Class-Room-Booking-System core (`src/main.py`):
the `Room` and `RoomManager` classes and the CSV snapshot codec.

Conventions of the embedding:
* Python `int` is `ℤ`; Python `set` of ints is `Finset ℤ`.
* A raised `ValueError` is modelled by the `Err` inductive, one constructor
  per distinct raise site/message of the source.
* A mutating method on an object becomes a function returning the new object
  together with `Except Err`-style success/failure; every error path of the
  source returns before any mutation, which the embedding mirrors by
  returning the unchanged state alongside the error.
* The snapshot codec is modelled at the row level: a CSV data row is the
  4-tuple of parsed fields (`room_no`, `building`, `capacity`,
  `booked_hours` list).  The spec places generic CSV emission (quoting,
  decimal printing of integers, the mandatory header row) out of scope, and
  Python's `csv` module together with `str`/`int` round-trips these fields
  exactly, so the row model keeps precisely the content the core code
  computes: `get_booked_hours_str` contributes the ascending hour list
  (its `";"`-join is an injective formatting of that list) and
  `from_csv_row` folds that list back into the set.
-/

namespace ClassRoomBooking

/-- The failure kinds of the core, one per raise site of `src/main.py`
(the spec's error taxonomy):
* `invalidHour`    — "Hour must be between 0 and 23."
* `alreadyBooked`  — "Hour {hour} is already booked for room {room_no}."
* `notBooked`      — "Hour {hour} is not booked for room {room_no}."
* `invalidCapacity`— "Capacity must be positive."
* `duplicateId`    — "Room with ID '{room_no}' already exists."
* `roomNotFound`   — "Room '{room_no}' not found." -/
inductive Err : Type where
  | invalidHour
  | alreadyBooked
  | notBooked
  | invalidCapacity
  | duplicateId
  | roomNotFound
deriving DecidableEq

/-- `class Room` (src/main.py:4-15): id string, building, capacity and the
set of booked hours. -/
structure Room where
  room_no : String
  building : String
  capacity : ℤ
  booked_hours : Finset ℤ
deriving DecidableEq

/-- `Room.book_hour` (src/main.py:17-23).  The source checks membership
first, the `0 <= hour <= 23` range second, and only then mutates. -/
def Room.book_hour (r : Room) (hour : ℤ) : Room × Except Err Unit :=
  if hour ∈ r.booked_hours then (r, .error .alreadyBooked)
  else if hour < 0 ∨ 23 < hour then (r, .error .invalidHour)
  else ({ r with booked_hours := insert hour r.booked_hours }, .ok ())

/-- `Room.is_free_at_hour` (src/main.py:25-27). -/
def Room.is_free_at_hour (r : Room) (hour : ℤ) : Bool :=
  decide (hour ∉ r.booked_hours)

/-- `Room.cancel_hour` (src/main.py:29-35).  The source checks membership
first, the range second, and only then mutates. -/
def Room.cancel_hour (r : Room) (hour : ℤ) : Room × Except Err Unit :=
  if hour ∉ r.booked_hours then (r, .error .notBooked)
  else if hour < 0 ∨ 23 < hour then (r, .error .invalidHour)
  else ({ r with booked_hours := r.booked_hours.erase hour }, .ok ())

/-- `Room.get_booked_hours_str` (src/main.py:37-41), at the row level: the
content of that CSV field is `sorted(self.booked_hours)`; the `";"`-join is
injective formatting handled by the out-of-scope text layer (the empty set
gives the empty string, i.e. the empty list). -/
def Room.get_booked_hours_str (r : Room) : List ℤ :=
  r.booked_hours.sort (· ≤ ·)

/-- One parsed CSV data row, the 4 fields of src/main.py:148. -/
structure CsvRow where
  room_no : String
  building : String
  capacity : ℤ
  booked_hours_str : List ℤ
deriving DecidableEq

/-- `Room.from_csv_row` (src/main.py:43-52): rebuild a Room, adding each
listed hour to the (initially empty) set.  No validation is performed. -/
def Room.from_csv_row (row : CsvRow) : Room :=
  { room_no := row.room_no
    building := row.building
    capacity := row.capacity
    booked_hours := row.booked_hours_str.foldl (fun s h => insert h s) ∅ }

/-- `class RoomManager` (src/main.py:54-62): the registry, an insertion
ordered list of Rooms. -/
structure RoomManager where
  rooms : List Room
deriving DecidableEq

/-- `RoomManager.add_room` (src/main.py:64-71): capacity check first, then
a linear duplicate scan, then append a Room with an empty booking set. -/
def RoomManager.add_room (m : RoomManager) (room_no building : String)
    (capacity : ℤ) : RoomManager × Except Err Unit :=
  if capacity ≤ 0 then (m, .error .invalidCapacity)
  else if m.rooms.any (fun room => room.room_no == room_no) then
    (m, .error .duplicateId)
  else (⟨m.rooms ++ [⟨room_no, building, capacity, ∅⟩]⟩, .ok ())

/-- `RoomManager._find_room` (src/main.py:120-125): first Room with the
given id, if any. -/
def RoomManager.findRoomAux (m : RoomManager) (room_no : String) :
    Option Room :=
  m.rooms.find? (fun room => room.room_no == room_no)

/-- Replace the first Room carrying the given id (the object
`_find_room` returned and the Python method mutated in place). -/
def updateFirst : List Room → String → Room → List Room
  | [], _, _ => []
  | r :: rs, room_no, r' =>
    if r.room_no == room_no then r' :: rs else r :: updateFirst rs room_no r'

/-- `RoomManager.book_room` (src/main.py:73-78): find the room, fail with
`roomNotFound` if absent, otherwise delegate to `Room.book_hour` (which in
Python mutates the found object in place). -/
def RoomManager.book_room (m : RoomManager) (room_no : String) (hour : ℤ) :
    RoomManager × Except Err Unit :=
  match m.findRoomAux room_no with
  | none => (m, .error .roomNotFound)
  | some room =>
    (⟨updateFirst m.rooms room_no (room.book_hour hour).1⟩,
     (room.book_hour hour).2)

/-- `RoomManager.cancel_booking` (src/main.py:80-85). -/
def RoomManager.cancel_booking (m : RoomManager) (room_no : String)
    (hour : ℤ) : RoomManager × Except Err Unit :=
  match m.findRoomAux room_no with
  | none => (m, .error .roomNotFound)
  | some room =>
    (⟨updateFirst m.rooms room_no (room.cancel_hour hour).1⟩,
     (room.cancel_hour hour).2)

/-- `RoomManager.find_rooms` (src/main.py:87-104).  The three `continue`
guards are Python-truthiness tests: `building` is skipped when `None` or
the empty string, `min_capacity` when `None` or `0`, while `hour` is
compared against `None` only. -/
def RoomManager.find_rooms (m : RoomManager) (building : Option String)
    (min_capacity : Option ℤ) (hour : Option ℤ) : List Room :=
  m.rooms.filter fun room =>
    (match building with
     | none => true
     | some b => if b == "" then true else room.building == b) &&
    (match min_capacity with
     | none => true
     | some mc => if mc == 0 then true else decide (mc ≤ room.capacity)) &&
    (match hour with
     | none => true
     | some h => room.is_free_at_hour h)

/-- `RoomManager.view_room` (src/main.py:106-111): read-only; returns the
Room or fails.  The manager component of the result is the (unchanged)
registry. -/
def RoomManager.view_room (m : RoomManager) (room_no : String) :
    RoomManager × Except Err Room :=
  match m.findRoomAux room_no with
  | none => (m, .error .roomNotFound)
  | some room => (m, .ok room)

/-- `RoomManager.delete_room` (src/main.py:113-118): find the room, fail
with `roomNotFound` if absent, otherwise `self.rooms.remove(room)` —
removal of the found object, i.e. of the first Room with that id. -/
def RoomManager.delete_room (m : RoomManager) (room_no : String) :
    RoomManager × Except Err Unit :=
  match m.findRoomAux room_no with
  | none => (m, .error .roomNotFound)
  | some room => (⟨m.rooms.erase room⟩, .ok ())

/-- `RoomManager.load_from_csv` (src/main.py:127-141), row level: append a
Room per data row.  (The source appends to `self.rooms` without clearing
and without any duplicate check; header skipping, the missing-file branch
and the degrade-to-empty exception handler are I/O concerns outside the
row model.) -/
def RoomManager.load_from_csv (m : RoomManager) (rows : List CsvRow) :
    RoomManager :=
  ⟨m.rooms ++ rows.map Room.from_csv_row⟩

/-- `RoomManager.save_to_csv` (src/main.py:143-158), row level: one row
per Room in registry order (the fixed header row belongs to the text
layer). -/
def RoomManager.save_to_csv (m : RoomManager) : List CsvRow :=
  m.rooms.map fun room =>
    ⟨room.room_no, room.building, room.capacity, room.get_booked_hours_str⟩

/-- The uniqueness invariant of the spec's data model: all ids pairwise
distinct across the registry. -/
def RoomManager.idsUnique (m : RoomManager) : Prop :=
  m.rooms.Pairwise fun a b => a.room_no ≠ b.room_no

/-- The filter predicate exactly as claim C1 words it: every supplied
filter constrains (building by exact case-sensitive equality, capacity by
`≥`, hour by freeness); an omitted filter does not. -/
def claimMatches (building : Option String) (min_capacity : Option ℤ)
    (hour : Option ℤ) (room : Room) : Bool :=
  building.all (fun b => room.building == b) &&
  min_capacity.all (fun mc => decide (mc ≤ room.capacity)) &&
  hour.all (fun h => decide (h ∉ room.booked_hours))

/-- The filter predicate of the amended claim C1: as `claimMatches`, except
that a supplied empty-string building and a supplied `min_capacity = 0`
impose no constraint. -/
def amendedMatches (building : Option String) (min_capacity : Option ℤ)
    (hour : Option ℤ) (room : Room) : Bool :=
  building.all (fun b => b == "" || room.building == b) &&
  min_capacity.all (fun mc => mc == 0 || decide (mc ≤ room.capacity)) &&
  hour.all (fun h => decide (h ∉ room.booked_hours))

/-- A sample room used as concrete input by witnesses. -/
def sampleRoom : Room := ⟨"R1", "MainHall", 30, ∅⟩

/-- A sample one-room registry used as concrete input by witnesses. -/
def sampleMgr : RoomManager := ⟨[sampleRoom]⟩

/-! ### Helper lemmas about the operations -/

theorem book_hour_success (r : Room) (h : ℤ) (h0 : 0 ≤ h) (h23 : h ≤ 23)
    (hmem : h ∉ r.booked_hours) :
    r.book_hour h = ({ r with booked_hours := insert h r.booked_hours }, .ok ()) := by
  unfold Room.book_hour
  rw [if_neg hmem, if_neg (by omega)]

theorem cancel_hour_success (r : Room) (h : ℤ) (h0 : 0 ≤ h) (h23 : h ≤ 23)
    (hmem : h ∈ r.booked_hours) :
    r.cancel_hour h = ({ r with booked_hours := r.booked_hours.erase h }, .ok ()) := by
  unfold Room.cancel_hour
  rw [if_neg (not_not_intro hmem), if_neg (by omega)]

theorem book_hour_error_fst (r : Room) (h : ℤ) (e : Err)
    (he : (r.book_hour h).2 = .error e) : (r.book_hour h).1 = r := by
  by_cases h1 : h ∈ r.booked_hours
  · simp [Room.book_hour, h1]
  · by_cases h2 : h < 0 ∨ 23 < h
    · simp [Room.book_hour, h1, h2]
    · simp [Room.book_hour, h1, h2] at he

theorem cancel_hour_error_fst (r : Room) (h : ℤ) (e : Err)
    (he : (r.cancel_hour h).2 = .error e) : (r.cancel_hour h).1 = r := by
  by_cases h1 : h ∉ r.booked_hours
  · simp [Room.cancel_hour, h1]
  · by_cases h2 : h < 0 ∨ 23 < h
    · simp [Room.cancel_hour, h1, h2]
    · simp [Room.cancel_hour, h1, h2] at he

theorem updateFirst_self (l : List Room) (room_no : String) (r : Room)
    (hf : l.find? (fun room => room.room_no == room_no) = some r) :
    updateFirst l room_no r = l := by
  induction l with
  | nil => rfl
  | cons x xs ih =>
    rw [List.find?_cons] at hf
    unfold updateFirst
    cases hbeq : (x.room_no == room_no) with
    | true =>
      simp only [hbeq] at hf
      simp only [hbeq, if_true]
      cases hf
      rfl
    | false =>
      simp only [hbeq] at hf
      simp only [hbeq, Bool.false_eq_true, if_false]
      rw [ih hf]

theorem findRoomAux_mem (m : RoomManager) (room_no : String) (r : Room)
    (hf : m.findRoomAux room_no = some r) :
    r ∈ m.rooms ∧ r.room_no = room_no := by
  unfold RoomManager.findRoomAux at hf
  refine ⟨List.mem_of_find?_eq_some hf, ?_⟩
  have := List.find?_some hf
  simpa using this

/-! ### Claim theorems -/

/-- C2, counterexample: the claim says cancelling hour `-1` fails with
`InvalidHour` regardless of current state, but on a Room with no bookings
`cancel_hour (-1)` fails with `NotBooked` (the source checks membership
before the hour range). -/
theorem C2_counterexample :
    (Room.cancel_hour ⟨"R1", "MainHall", 30, ∅⟩ (-1)).2 = .error .notBooked ∧
    Err.notBooked ≠ Err.invalidHour :=
  ⟨rfl, by decide⟩

/-- C2, amended: on any Room whose booked hours all lie in `[0, 23]`,
booking hour `-1` or `24` fails with `InvalidHour` and cancelling hour
`-1` or `24` fails with `NotBooked`; in both cases the Room (hence its
`booked_hours` set) is unchanged. -/
theorem C2_amended_out_of_range (r : Room) (h : ℤ)
    (hh : h = -1 ∨ h = 24)
    (hr : ∀ x ∈ r.booked_hours, 0 ≤ x ∧ x ≤ 23) :
    r.book_hour h = (r, .error .invalidHour) ∧
    r.cancel_hour h = (r, .error .notBooked) := by
  have hmem : h ∉ r.booked_hours := by
    intro hx
    have := hr h hx
    rcases hh with rfl | rfl <;> omega
  constructor
  · unfold Room.book_hour
    rw [if_neg hmem, if_pos (by rcases hh with rfl | rfl <;> omega)]
  · unfold Room.cancel_hour
    rw [if_pos hmem]

/-- Witness for `C2_amended_out_of_range` at the sample room and hour `-1`. -/
theorem C2_amended_witness :
    Room.book_hour sampleRoom (-1) = (sampleRoom, .error .invalidHour) ∧
    Room.cancel_hour sampleRoom (-1) = (sampleRoom, .error .notBooked) :=
  C2_amended_out_of_range sampleRoom (-1) (Or.inl rfl) (by simp [sampleRoom])

/-- C7: for a valid hour in `[0, 23]` that is not currently booked, booking
succeeds, the subsequent cancel succeeds, and the Room returns to exactly
its prior state (in particular its prior `booked_hours` set). -/
theorem C7_book_cancel_round_trip (r : Room) (h : ℤ)
    (h0 : 0 ≤ h) (h23 : h ≤ 23) (hmem : h ∉ r.booked_hours) :
    (r.book_hour h).2 = .ok () ∧
    ((r.book_hour h).1.cancel_hour h).2 = .ok () ∧
    ((r.book_hour h).1.cancel_hour h).1 = r := by
  have hc := cancel_hour_success { r with booked_hours := insert h r.booked_hours }
    h h0 h23 (by simp)
  rw [book_hour_success r h h0 h23 hmem]
  dsimp only
  rw [hc]
  dsimp only
  refine ⟨rfl, rfl, ?_⟩
  rw [Finset.erase_insert hmem]

/-- Witness for `C7_book_cancel_round_trip` at the sample room and hour 9. -/
theorem C7_witness :
    ((sampleRoom.book_hour 9).1.cancel_hour 9).1 = sampleRoom :=
  (C7_book_cancel_round_trip sampleRoom 9 (by decide) (by decide)
    (by simp [sampleRoom])).2.2

/-- C8: for a valid hour in `[0, 23]` not booked yet, booking it twice
fails with `AlreadyBooked` on the second attempt; and on any Room,
cancelling an hour that is not booked fails with `NotBooked`. -/
theorem C8_double_book_and_cancel_unbooked (r : Room) (h : ℤ)
    (h0 : 0 ≤ h) (h23 : h ≤ 23) (hmem : h ∉ r.booked_hours)
    (r' : Room) (h' : ℤ) (hmem' : h' ∉ r'.booked_hours) :
    (r.book_hour h).2 = .ok () ∧
    ((r.book_hour h).1.book_hour h).2 = .error .alreadyBooked ∧
    (r'.cancel_hour h').2 = .error .notBooked := by
  rw [book_hour_success r h h0 h23 hmem]
  dsimp only
  refine ⟨rfl, ?_, ?_⟩
  · unfold Room.book_hour
    rw [if_pos (by simp)]
  · unfold Room.cancel_hour
    rw [if_pos hmem']

/-- Witness for `C8_double_book_and_cancel_unbooked` at the sample room,
hour 9 for the double booking and hour 5 for the unbooked cancel. -/
theorem C8_witness :
    ((sampleRoom.book_hour 9).1.book_hour 9).2 = .error .alreadyBooked ∧
    (sampleRoom.cancel_hour 5).2 = .error .notBooked :=
  ⟨(C8_double_book_and_cancel_unbooked sampleRoom 9 (by decide) (by decide)
      (by simp [sampleRoom]) sampleRoom 5 (by simp [sampleRoom])).2.1,
   (C8_double_book_and_cancel_unbooked sampleRoom 9 (by decide) (by decide)
      (by simp [sampleRoom]) sampleRoom 5 (by simp [sampleRoom])).2.2⟩

/-- C6: `add_room` fails with `InvalidCapacity` when `capacity ≤ 0`
(registry unchanged), fails with `DuplicateId` when the capacity is valid
but some Room already carries exactly that id string (registry unchanged),
and otherwise appends a new Room with the given id, building, capacity and
an empty booking set. -/
theorem C6_add_room_spec (m : RoomManager) (no b : String) (c : ℤ) :
    (c ≤ 0 → m.add_room no b c = (m, .error .invalidCapacity)) ∧
    (0 < c → (∃ r ∈ m.rooms, r.room_no = no) →
      m.add_room no b c = (m, .error .duplicateId)) ∧
    (0 < c → (∀ r ∈ m.rooms, r.room_no ≠ no) →
      m.add_room no b c = (⟨m.rooms ++ [⟨no, b, c, ∅⟩]⟩, .ok ())) := by
  refine ⟨?_, ?_, ?_⟩
  · intro hc
    unfold RoomManager.add_room
    rw [if_pos hc]
  · intro hc hdup
    have hany : m.rooms.any (fun room => room.room_no == no) = true := by
      rw [List.any_eq_true]
      obtain ⟨r, hr, he⟩ := hdup
      exact ⟨r, hr, by simp [he]⟩
    unfold RoomManager.add_room
    rw [if_neg (by omega), if_pos hany]
  · intro hc hnone
    have hany : ¬ (m.rooms.any (fun room => room.room_no == no) = true) := by
      rw [List.any_eq_true]
      rintro ⟨r, hr, he⟩
      exact hnone r hr (by simpa using he)
    unfold RoomManager.add_room
    rw [if_neg (by omega), if_neg hany]

/-- Witness for `C6_add_room_spec` on the sample registry: capacity 0 is
rejected, re-adding id `"R1"` is rejected, and adding a fresh id `"R2"`
appends the new Room. -/
theorem C6_witness :
    sampleMgr.add_room "R2" "Annex" 0 = (sampleMgr, .error .invalidCapacity) ∧
    sampleMgr.add_room "R1" "Annex" 5 = (sampleMgr, .error .duplicateId) ∧
    sampleMgr.add_room "R2" "Annex" 5 =
      (⟨sampleMgr.rooms ++ [⟨"R2", "Annex", 5, ∅⟩]⟩, .ok ()) :=
  ⟨(C6_add_room_spec sampleMgr "R2" "Annex" 0).1 (by decide),
   (C6_add_room_spec sampleMgr "R1" "Annex" 5).2.1 (by decide)
     ⟨sampleRoom, by simp [sampleMgr], rfl⟩,
   (C6_add_room_spec sampleMgr "R2" "Annex" 5).2.2 (by decide)
     (by intro r hr; simp [sampleMgr, sampleRoom] at hr; simp [hr, sampleRoom])⟩

/-- C5: every operation of the manager is atomic on failure — whenever
`add_room`, `book_room`, `cancel_booking` or `delete_room` returns an
error, the registry it returns is exactly the input registry, and
`view_room` never changes the registry at all. -/
theorem C5_failure_atomicity (m : RoomManager) (no b : String) (c h : ℤ)
    (e : Err) :
    ((m.add_room no b c).2 = .error e → (m.add_room no b c).1 = m) ∧
    ((m.book_room no h).2 = .error e → (m.book_room no h).1 = m) ∧
    ((m.cancel_booking no h).2 = .error e → (m.cancel_booking no h).1 = m) ∧
    (m.view_room no).1 = m ∧
    ((m.delete_room no).2 = .error e → (m.delete_room no).1 = m) := by
  refine ⟨?_, ?_, ?_, ?_, ?_⟩
  · intro he
    by_cases h1 : c ≤ 0
    · simp [RoomManager.add_room, h1]
    · by_cases h2 : m.rooms.any (fun room => room.room_no == no) = true
      · simp [RoomManager.add_room, h1, h2]
      · simp [RoomManager.add_room, h1, h2] at he
  · intro he
    unfold RoomManager.book_room at he ⊢
    cases hf : m.findRoomAux no with
    | none => rfl
    | some r =>
      rw [hf] at he
      dsimp only at he ⊢
      rw [book_hour_error_fst r h e he,
        updateFirst_self m.rooms no r (by simpa [RoomManager.findRoomAux] using hf)]
  · intro he
    unfold RoomManager.cancel_booking at he ⊢
    cases hf : m.findRoomAux no with
    | none => rfl
    | some r =>
      rw [hf] at he
      dsimp only at he ⊢
      rw [cancel_hour_error_fst r h e he,
        updateFirst_self m.rooms no r (by simpa [RoomManager.findRoomAux] using hf)]
  · unfold RoomManager.view_room
    cases hf : m.findRoomAux no <;> rfl
  · intro he
    unfold RoomManager.delete_room at he ⊢
    cases hf : m.findRoomAux no with
    | none => rfl
    | some r =>
      rw [hf] at he
      dsimp only at he
      exact absurd he (by simp)

/-- Witness for `C5_failure_atomicity` on the empty registry: a
capacity-0 add, and a book/cancel/delete on an id that does not exist, all
fail and return the registry unchanged; view leaves it unchanged too. -/
theorem C5_witness :
    ((RoomManager.mk []).add_room "R1" "B" 0).1 = ⟨[]⟩ ∧
    ((RoomManager.mk []).book_room "R1" 9).1 = ⟨[]⟩ ∧
    ((RoomManager.mk []).cancel_booking "R1" 9).1 = ⟨[]⟩ ∧
    ((RoomManager.mk []).view_room "R1").1 = ⟨[]⟩ ∧
    ((RoomManager.mk []).delete_room "R1").1 = ⟨[]⟩ :=
  ⟨(C5_failure_atomicity ⟨[]⟩ "R1" "B" 0 9 .invalidCapacity).1 rfl,
   (C5_failure_atomicity ⟨[]⟩ "R1" "B" 0 9 .roomNotFound).2.1 rfl,
   (C5_failure_atomicity ⟨[]⟩ "R1" "B" 0 9 .roomNotFound).2.2.1 rfl,
   (C5_failure_atomicity ⟨[]⟩ "R1" "B" 0 9 .roomNotFound).2.2.2.1,
   (C5_failure_atomicity ⟨[]⟩ "R1" "B" 0 9 .roomNotFound).2.2.2.2 rfl⟩

/-- C1, counterexample: the claim says every supplied filter constrains
(building by exact equality), but `find_rooms` skips a supplied
empty-string building (Python truthiness), so on a registry whose one
room is in building `"X"`, `find(building="")` returns that room while
the claimed conjunctive filter returns nothing. -/
theorem C1_counterexample :
    (RoomManager.mk [⟨"R1", "X", 5, ∅⟩]).find_rooms (some "") none none ≠
      (RoomManager.mk [⟨"R1", "X", 5, ∅⟩]).rooms.filter
        (claimMatches (some "") none none) :=
  fun hcon => List.noConfusion hcon

/-- C1, amended: `find_rooms` returns exactly the rooms, in registry
order, satisfying all supplied filters conjunctively — building by exact
case-sensitive equality, `min_capacity` by `capacity ≥ min_capacity`,
`hour` by freeness — except that a supplied empty-string building and a
supplied `min_capacity = 0` impose no constraint; omitted filters impose
none, and an empty list (not an error) results when nothing matches. -/
theorem C1_amended_find_filter (m : RoomManager) (b : Option String)
    (mc h : Option ℤ) :
    m.find_rooms b mc h = m.rooms.filter (amendedMatches b mc h) := by
  unfold RoomManager.find_rooms
  refine List.filter_congr fun room _ => ?_
  cases b with
  | none => cases mc with
    | none => cases h <;> simp [amendedMatches, Room.is_free_at_hour]
    | some v =>
      cases h <;> cases hv : (v == 0) <;>
        simp [amendedMatches, Room.is_free_at_hour, hv]
  | some s =>
    cases hs : (s == "") <;> cases mc with
    | none => cases h <;> simp [amendedMatches, Room.is_free_at_hour, hs]
    | some v =>
      cases h <;> cases hv : (v == 0) <;>
        simp [amendedMatches, Room.is_free_at_hour, hs, hv]

/-- C10, counterexample: a negative `min_capacity` is *not* treated as
omitted — the source's truthiness test lets it through, and on a registry
holding a room of capacity `-10` (constructible by deserialization, which
validates nothing), `find(min_capacity=-5)` excludes that room while the
unfiltered `find` returns it. -/
theorem C10_counterexample :
    (RoomManager.mk [⟨"R1", "B", -10, ∅⟩]).find_rooms none (some (-5)) none
        = [] ∧
    (RoomManager.mk [⟨"R1", "B", -10, ∅⟩]).find_rooms none none none
        = [⟨"R1", "B", -10, ∅⟩] ∧
    ([] : List Room) ≠ [⟨"R1", "B", -10, ∅⟩] :=
  ⟨rfl, rfl, fun hcon => List.noConfusion hcon⟩

/-- C10, amended: a supplied empty-string building and a supplied
`min_capacity = 0` are treated exactly as omitted, on every registry; a
supplied negative `min_capacity` is not skipped but only excludes rooms
with `capacity < min_capacity`, hence imposes no constraint on any
registry all of whose rooms have positive capacity. -/
theorem C10_amended_falsy_filters (m : RoomManager) (b : Option String)
    (mc h : Option ℤ) (v : ℤ) :
    (m.find_rooms (some "") mc h = m.find_rooms none mc h) ∧
    (m.find_rooms b (some 0) h = m.find_rooms b none h) ∧
    ((∀ r ∈ m.rooms, 0 < r.capacity) → v < 0 →
      m.find_rooms b (some v) h = m.find_rooms b none h) := by
  refine ⟨?_, ?_, ?_⟩
  · unfold RoomManager.find_rooms
    exact List.filter_congr fun room _ => by simp
  · unfold RoomManager.find_rooms
    exact List.filter_congr fun room _ => by simp
  · intro hpos hv
    unfold RoomManager.find_rooms
    refine List.filter_congr fun room hr => ?_
    have h1 : ¬ (v == 0) = true := by simpa using (by omega : v ≠ 0)
    have h2 : v ≤ room.capacity := le_of_lt (lt_trans hv (hpos room hr))
    simp [h1, h2]

/-- Witness for `C10_amended_falsy_filters` on the sample registry (all
capacities positive) with `min_capacity = -5`. -/
theorem C10_amended_witness :
    sampleMgr.find_rooms (some "") none none =
      sampleMgr.find_rooms none none none ∧
    sampleMgr.find_rooms none (some (-5)) none =
      sampleMgr.find_rooms none none none :=
  ⟨(C10_amended_falsy_filters sampleMgr none none none (-5)).1,
   (C10_amended_falsy_filters sampleMgr none none none (-5)).2.2
     (by intro r hr; simp [sampleMgr, sampleRoom] at hr; simp [hr, sampleRoom])
     (by decide)⟩

/-- Rebuilding a finite set by left-folding `insert` over a list unions
the list's elements into the accumulator. -/
theorem foldl_insert_eq (l : List ℤ) (acc : Finset ℤ) :
    l.foldl (fun s h => insert h s) acc = acc ∪ l.toFinset := by
  induction l generalizing acc with
  | nil => simp
  | cons x xs ih =>
    rw [List.foldl_cons, ih, List.toFinset_cons, Finset.insert_union,
      Finset.union_insert]

/-- Serializing one Room to its CSV row and parsing it back reproduces
the Room exactly. -/
theorem from_csv_row_round_trip (r : Room) :
    Room.from_csv_row
      ⟨r.room_no, r.building, r.capacity, r.get_booked_hours_str⟩ = r := by
  unfold Room.from_csv_row Room.get_booked_hours_str
  dsimp only
  rw [foldl_insert_eq, Finset.empty_union, Finset.sort_toFinset]

/-- C3: saving any registry to CSV rows and loading those rows into an
empty manager reproduces the registry exactly — same rooms, in the same
order, each with identical id, building, capacity and `booked_hours` set
(the sorted serialization of the booking set folds back to the same set);
in particular the empty registry round-trips to the empty registry. -/
theorem C3_snapshot_round_trip (m : RoomManager) :
    (RoomManager.mk []).load_from_csv m.save_to_csv = m := by
  unfold RoomManager.load_from_csv RoomManager.save_to_csv
  dsimp only
  rw [List.nil_append, List.map_map]
  have hfun : (Room.from_csv_row ∘ fun room : Room =>
      CsvRow.mk room.room_no room.building room.capacity
        room.get_booked_hours_str) = id :=
    funext fun r => from_csv_row_round_trip r
  rw [hfun, List.map_id]

/-- C4, counterexample: the claim says loading a snapshot preserves id
uniqueness, but `load_from_csv` appends rows with no duplicate check, so
loading a row with id `"R1"` into a (unique-id) registry already holding
`"R1"` produces two rooms with the same id. -/
theorem C4_counterexample :
    (RoomManager.mk [⟨"R1", "B", 10, ∅⟩]).idsUnique ∧
    ¬ ((RoomManager.mk [⟨"R1", "B", 10, ∅⟩]).load_from_csv
        [⟨"R1", "B", 10, []⟩]).idsUnique := by
  constructor
  · simp [RoomManager.idsUnique]
  · intro hcon
    unfold RoomManager.idsUnique RoomManager.load_from_csv at hcon
    simp [Room.from_csv_row, List.pairwise_cons] at hcon

/-- C4, amended: starting from a registry with pairwise-distinct ids,
`add_room` always preserves distinctness (it rejects duplicates), and
`load_from_csv` preserves it provided the loaded rows' ids are pairwise
distinct and disjoint from the ids already in the registry (as they are
when a snapshot of a unique-id registry is loaded at startup into an
empty one). -/
theorem C4_amended_uniqueness (m : RoomManager) (no b : String) (c : ℤ)
    (rows : List CsvRow) (hm : m.idsUnique) :
    (m.add_room no b c).1.idsUnique ∧
    ((rows.Pairwise fun p q => p.room_no ≠ q.room_no) →
      (∀ row ∈ rows, ∀ r ∈ m.rooms, row.room_no ≠ r.room_no) →
      (m.load_from_csv rows).idsUnique) := by
  constructor
  · by_cases h1 : c ≤ 0
    · simpa [RoomManager.add_room, h1] using hm
    · by_cases h2 : m.rooms.any (fun room => room.room_no == no) = true
      · simpa [RoomManager.add_room, h1, h2] using hm
      · have hno : ∀ r ∈ m.rooms, r.room_no ≠ no := by
          intro r hr hcon
          exact h2 (List.any_eq_true.mpr ⟨r, hr, by simp [hcon]⟩)
        unfold RoomManager.add_room RoomManager.idsUnique
        rw [if_neg h1, if_neg h2]
        dsimp only
        rw [List.pairwise_append]
        exact ⟨hm, List.pairwise_singleton _ _,
          fun x hx y hy => by
            rw [List.mem_singleton] at hy
            subst hy
            exact hno x hx⟩
  · intro hrows hdisj
    unfold RoomManager.load_from_csv RoomManager.idsUnique
    dsimp only
    rw [List.pairwise_append]
    refine ⟨hm, ?_, ?_⟩
    · rw [List.pairwise_map]
      exact hrows.imp fun hne => hne
    · intro x hx y hy
      rw [List.mem_map] at hy
      obtain ⟨row, hrow, rfl⟩ := hy
      exact (hdisj row hrow x hx).symm

/-- Witness for `C4_amended_uniqueness` on the sample registry: adding a
fresh id and loading a disjoint single-row snapshot both keep ids
pairwise distinct. -/
theorem C4_amended_witness :
    (sampleMgr.add_room "R3" "Annex" 5).1.idsUnique ∧
    (sampleMgr.load_from_csv [⟨"R2", "Annex", 5, []⟩]).idsUnique :=
  ⟨(C4_amended_uniqueness sampleMgr "R3" "Annex" 5 [⟨"R2", "Annex", 5, []⟩]
      (by simp [RoomManager.idsUnique, sampleMgr])).1,
   (C4_amended_uniqueness sampleMgr "R3" "Annex" 5 [⟨"R2", "Annex", 5, []⟩]
      (by simp [RoomManager.idsUnique, sampleMgr])).2
     (List.pairwise_singleton _ _)
     (by intro row hrow r hr
         simp [sampleMgr, sampleRoom] at hrow hr
         simp [hrow, hr, sampleRoom])⟩

/-- After deleting the Room that `_find_room` located, no remaining Room
carries the deleted id (given the uniqueness invariant). -/
theorem erase_found_no_id (m : RoomManager) (no : String) (r : Room)
    (hu : m.idsUnique) (hf : m.findRoomAux no = some r) :
    ∀ x ∈ m.rooms.erase r, x.room_no ≠ no := by
  obtain ⟨hmem, hid⟩ := findRoomAux_mem m no r hf
  have hnodup : m.rooms.Nodup :=
    hu.imp fun hne heq => hne (congrArg Room.room_no heq)
  intro x hx hcon
  rw [List.Nodup.mem_erase_iff hnodup] at hx
  obtain ⟨hxr, hxl⟩ := hx
  have hsym : Symmetric fun a b : Room => a.room_no ≠ b.room_no :=
    fun _ _ hab heq => hab heq.symm
  exact (List.Pairwise.forall hsym hu hxl hmem hxr) (hcon.trans hid.symm)

/-- C9: on a registry with unique ids, `delete_room` fails with
`RoomNotFound` (registry unchanged) when no Room has the id; otherwise it
succeeds and removes the Room permanently: no remaining Room carries the
id, a subsequent `view_room` of the id fails with `RoomNotFound`, no
subsequent `find_rooms` result contains a Room with the id, and a later
`add_room` with the same id (and positive capacity) succeeds. -/
theorem C9_delete_room (m : RoomManager) (no b : String) (c : ℤ)
    (hu : m.idsUnique) :
    ((∀ r ∈ m.rooms, r.room_no ≠ no) →
      m.delete_room no = (m, .error .roomNotFound)) ∧
    (∀ r, m.findRoomAux no = some r →
      m.delete_room no = (⟨m.rooms.erase r⟩, .ok ()) ∧
      (∀ x ∈ (m.delete_room no).1.rooms, x.room_no ≠ no) ∧
      ((m.delete_room no).1.view_room no).2 = .error .roomNotFound ∧
      (∀ b' mc h x, x ∈ (m.delete_room no).1.find_rooms b' mc h →
        x.room_no ≠ no) ∧
      (0 < c → ((m.delete_room no).1.add_room no b c).2 = .ok ())) := by
  constructor
  · intro hno
    have hnone : m.findRoomAux no = none := by
      unfold RoomManager.findRoomAux
      exact List.find?_eq_none.mpr fun x hx => by simpa using hno x hx
    unfold RoomManager.delete_room
    rw [hnone]
  · intro r hf
    have hd : m.delete_room no = (⟨m.rooms.erase r⟩, .ok ()) := by
      unfold RoomManager.delete_room
      rw [hf]
    have hne : ∀ x ∈ (m.delete_room no).1.rooms, x.room_no ≠ no := by
      rw [hd]
      exact erase_found_no_id m no r hu hf
    have hnone : (m.delete_room no).1.findRoomAux no = none := by
      unfold RoomManager.findRoomAux
      exact List.find?_eq_none.mpr fun x hx => by simpa using hne x hx
    refine ⟨hd, hne, ?_, ?_, ?_⟩
    · unfold RoomManager.view_room
      rw [hnone]
    · intro b' mc h x hx
      unfold RoomManager.find_rooms at hx
      exact hne x (List.mem_filter.1 hx).1
    · intro hc
      have hany : ¬ ((m.delete_room no).1.rooms.any
          (fun room => room.room_no == no) = true) := by
        rw [List.any_eq_true]
        rintro ⟨x, hx, hbeq⟩
        exact hne x hx (by simpa using hbeq)
      unfold RoomManager.add_room
      rw [if_neg (by omega), if_neg hany]

/-- Witness for `C9_delete_room` on the sample registry: deleting the
only room `"R1"` succeeds, `"R1"` is gone from view, and re-adding
`"R1"` succeeds. -/
theorem C9_witness :
    sampleMgr.delete_room "R1" = (⟨[]⟩, .ok ()) ∧
    ((sampleMgr.delete_room "R1").1.view_room "R1").2 =
      .error .roomNotFound ∧
    ((sampleMgr.delete_room "R1").1.add_room "R1" "MainHall" 30).2 =
      .ok () :=
  have h := (C9_delete_room sampleMgr "R1" "MainHall" 30
    (by simp [RoomManager.idsUnique, sampleMgr])).2 sampleRoom rfl
  ⟨h.1, h.2.2.1, h.2.2.2.2 (by decide)⟩

end ClassRoomBooking
